import Mathlib

/-!
Shallow embedding of the Dependency & Traffic-Flow Graph Engine of the
kubeops-copilot-chat-ext repository, together with proofs of the
specification claims about it.

Sources embedded here:
* `src/analyzer/traffic/graph.ts` — the `GraphBuilder` accumulator;
* `src/analyzer/traffic/nodeId.ts` — `nodeId`, `makeNode`, `roleForKind`;
* `src/analyzer/traffic/k8s.ts` — `podLabelsMatchSelector`;
* `src/analyzer/traffic/discover/serviceFlow.ts` — host matching,
  `findMatchingDestinationRule`, the VirtualService/DestinationRule edge
  logic and the EndpointSlice→Pod downstream hop;
* `src/analyzer/traffic/discover/networkPolicyFlow.ts` — `matchLabels`,
  `nsMatchLabels` and the per-policy evaluation loop of
  `discoverNetworkPoliciesForTraffic`;
* `src/analyzer/reverseLookup.ts` — `virtualServiceReferencesService`
  host candidates;
* `src/analyzer/podHealth/impactRules.ts` — the per-kind impact rules;
* `src/extension.ts` — the argument validation of `analyzeTrafficFlow`.

JavaScript records (`Record<string, string>`) are modelled as association
lists with first-match lookup; `undefined` is modelled as `Option.none`;
JavaScript string truthiness ("" is falsy) is made explicit at each use
site, following the source.
-/

/-! ## Graph model (graph.ts, nodeId.ts, types.ts) -/

/-- Node of the traffic graph (`TrafficNode` in `types.ts`).  The `role`
union type of string literals is kept as a plain string. -/
structure TrafficNode where
  id : String
  kind : String
  name : String
  ns : Option String
  role : String
deriving DecidableEq, Repr

/-- Directed edge of the traffic graph (`TrafficEdge` in `types.ts`). -/
structure TrafficEdge where
  «from» : String
  «to» : String
  reason : String
deriving DecidableEq, Repr

/-- The graph snapshot returned by `GraphBuilder.build` (`TrafficGraph` in
`types.ts`); the `warnings` field is omitted (`none`) when empty, as in the
spread `...(this.warnings.length ? { warnings: this.warnings } : {})`. -/
structure TrafficGraph where
  start : TrafficNode
  nodes : List TrafficNode
  edges : List TrafficEdge
  warnings : Option (List String)
deriving DecidableEq, Repr

/-- `nodeId` from `nodeId.ts`: `` `${kind}|${namespace ?? ""}|${name}` ``. -/
def nodeId (kind name : String) (ns : Option String) : String :=
  kind ++ "|" ++ ns.getD "" ++ "|" ++ name

/-- `makeNode` from `nodeId.ts`. -/
def makeNode (kind name : String) (ns : Option String) (role : String) : TrafficNode :=
  { id := nodeId kind name ns, kind := kind, name := name, ns := ns, role := role }

/-- `roleForKind` from `nodeId.ts`. -/
def roleForKind (kind : String) : String :=
  if kind == "Ingress" || kind == "Gateway" then "entry"
  else if kind == "VirtualService" then "router"
  else if kind == "Service" then "service"
  else if kind == "EndpointSlice" || kind == "Endpoints" then "endpoint"
  else if kind == "Deployment" || kind == "StatefulSet" || kind == "DaemonSet"
      || kind == "ReplicaSet" then "workload"
  else if kind == "Pod" then "pod"
  else if kind == "DestinationRule" then "router"
  else "unknown"

/-- JavaScript `Map.set` on a list keyed by node `id`: overwrite in place
when the key is present (insertion order preserved), append otherwise. -/
def setNode (nodes : List TrafficNode) (n : TrafficNode) : List TrafficNode :=
  if nodes.any (fun m => m.id == n.id) then
    nodes.map (fun m => if m.id == n.id then n else m)
  else
    nodes ++ [n]

/-- Mutable state of a `GraphBuilder` (`graph.ts`): a `Map` of nodes keyed
by id, an edge list, and a warning list. -/
structure GraphBuilderState where
  start : TrafficNode
  nodes : List TrafficNode
  edges : List TrafficEdge
  warnings : List String
deriving DecidableEq, Repr

/-- `GraphBuilder.addNode`: `this.nodes.set(n.id, n)`. -/
def GraphBuilderState.addNode (s : GraphBuilderState) (n : TrafficNode) : GraphBuilderState :=
  { s with nodes := setNode s.nodes n }

/-- `GraphBuilder.addEdge`: insert both endpoints, then append the edge
only if the `(from, to, reason)` triple is not already present. -/
def GraphBuilderState.addEdge (s : GraphBuilderState) (f t : TrafficNode) (reason : String) :
    GraphBuilderState :=
  let s1 := (s.addNode f).addNode t
  if s1.edges.any (fun e => e.«from» == f.id && e.«to» == t.id && e.reason == reason) then s1
  else { s1 with edges := s1.edges ++ [{ «from» := f.id, «to» := t.id, reason := reason }] }

/-- `GraphBuilder.addWarning`. -/
def GraphBuilderState.addWarning (s : GraphBuilderState) (w : String) : GraphBuilderState :=
  { s with warnings := s.warnings ++ [w] }

/-- The `GraphBuilder` constructor: starts from an empty map and adds the
start node. -/
def GraphBuilderState.new (start : TrafficNode) : GraphBuilderState :=
  GraphBuilderState.addNode { start := start, nodes := [], edges := [], warnings := [] } start

/-- `GraphBuilder.build`. -/
def GraphBuilderState.build (s : GraphBuilderState) : TrafficGraph :=
  { start := s.start, nodes := s.nodes, edges := s.edges,
    warnings := if s.warnings.isEmpty then none else some s.warnings }

/-- One public mutation of a `GraphBuilder`. -/
inductive GraphOp
  | addNode (n : TrafficNode)
  | addEdge (f t : TrafficNode) (reason : String)
  | addWarning (w : String)
deriving DecidableEq, Repr

/-- Apply one mutation. -/
def applyOp (s : GraphBuilderState) : GraphOp → GraphBuilderState
  | .addNode n => s.addNode n
  | .addEdge f t r => s.addEdge f t r
  | .addWarning w => s.addWarning w

/-- Run a sequence of mutations against a builder state. -/
def runOps (s : GraphBuilderState) (ops : List GraphOp) : GraphBuilderState :=
  ops.foldl applyOp s

/-! ## Selector utilities

`matchLabels` / `nsMatchLabels` are from `networkPolicyFlow.ts` (empty or
absent selector selects all); `podLabelsMatchSelector` is from
`traffic/k8s.ts` (empty or absent selector selects nothing).  A label map
that is `undefined` at runtime is `none`; a present map is an association
list with first-match lookup. -/

/-- The shared loop body: every selector entry must be present in the
label map with an equal value (`podLabels[k] !== v` check). -/
def matchEntries (podLabels : List (String × String)) (sel : List (String × String)) : Bool :=
  sel.all fun kv => podLabels.lookup kv.1 == some kv.2

/-- `matchLabels` from `networkPolicyFlow.ts`: empty/absent selector
returns `true` before the label map is even consulted. -/
def matchLabels (podLabels : Option (List (String × String)))
    (selector : Option (List (String × String))) : Bool :=
  match selector with
  | none => true
  | some sel =>
    if sel.isEmpty then true
    else
      match podLabels with
      | none => false
      | some pl => matchEntries pl sel

/-- `nsMatchLabels` from `networkPolicyFlow.ts` (textually the same
algorithm as `matchLabels`, applied to namespace labels). -/
def nsMatchLabels (nsLabels : Option (List (String × String)))
    (selector : Option (List (String × String))) : Bool :=
  match selector with
  | none => true
  | some sel =>
    if sel.isEmpty then true
    else
      match nsLabels with
      | none => false
      | some nl => matchEntries nl sel

/-- `podLabelsMatchSelector` from `traffic/k8s.ts`: an empty or absent
selector matches nothing. -/
def podLabelsMatchSelector (podLabels : Option (List (String × String)))
    (selector : Option (List (String × String))) : Bool :=
  match selector with
  | none => false
  | some sel =>
    if sel.isEmpty then false
    else
      match podLabels with
      | none => false
      | some pl => matchEntries pl sel

/-- JavaScript `String.prototype.startsWith`, on the character lists of
the two strings. -/
def strStartsWith (s p : String) : Bool :=
  p.data.isPrefixOf s.data

/-- Key lookup in an optional label map (absent map yields nothing);
spec-side helper used to phrase "every key in the selector is present in
the label map with an equal value". -/
def labelGet (labels : Option (List (String × String))) (k : String) : Option String :=
  match labels with
  | none => none
  | some l => l.lookup k

/-! ## Service discovery (`discover/serviceFlow.ts`) -/

/-- The host test of `discoverFromService` (lines 102–106): a destination
host refers to the service iff it equals the name, starts with `name.`,
or equals the fully-qualified `name.ns.svc.cluster.local` form. -/
def vsHostMatchesService (host name ns : String) : Bool :=
  host == name || strStartsWith host (name ++ ".")
    || host == name ++ "." ++ ns ++ ".svc.cluster.local"

/-- One matched destination recorded by `discoverFromService`
(`matchedDestinations` entries: host, optional subset, optional numeric
weight). -/
structure Destination where
  host : String
  subset : Option String
  weight : Option Int
deriving DecidableEq, Repr

/-- A DestinationRule as consumed by `findMatchingDestinationRule`:
`metadata.name` and `spec.host`, each possibly absent. -/
structure DestinationRuleObj where
  name : Option String
  host : Option String
deriving DecidableEq, Repr

/-- `findMatchingDestinationRule` from `serviceFlow.ts`: first rule whose
(non-empty) host is in the candidate set, equals the service name, or
starts with `serviceName.`. -/
def findMatchingDestinationRule (destinationRules : List DestinationRuleObj)
    (destinationHost serviceName ns : String) : Option DestinationRuleObj :=
  let candidates : List String :=
    [serviceName, serviceName ++ "." ++ ns,
     serviceName ++ "." ++ ns ++ ".svc.cluster.local", destinationHost]
  destinationRules.find? fun dr =>
    match dr.host with
    | none => false
    | some h =>
      if h = "" then false
      else candidates.contains h || h == serviceName || strStartsWith h (serviceName ++ ".")

/-- One `route` entry of a VirtualService http rule
(`rt.destination.host` / `.subset` / `.weight`). -/
structure RouteDest where
  host : Option String
  subset : Option String
  weight : Option Int
deriving DecidableEq, Repr

/-- One http rule of a VirtualService (its `route` list). -/
structure HttpRoute where
  route : List RouteDest
deriving DecidableEq, Repr

/-- A VirtualService as consumed by `discoverFromService`:
`metadata.name`, `spec.gateways` (string entries) and `spec.http`. -/
structure VirtualServiceObj where
  name : Option String
  gateways : List String
  http : List HttpRoute
deriving DecidableEq, Repr

/-- The destination-collection loop of `discoverFromService` (lines
93–114): hosts that are present, non-empty (JS truthiness) and match the
service are recorded together with their (truthy) subset and numeric
weight. -/
def collectMatchedDestinations (http : List HttpRoute) (name ns : String) : List Destination :=
  http.foldl
    (fun acc h =>
      h.route.foldl
        (fun acc2 rt =>
          match rt.host with
          | none => acc2
          | some host =>
            if host = "" then acc2
            else if vsHostMatchesService host name ns then
              acc2 ++ [{ host := host,
                         subset := match rt.subset with
                                   | some s => if s = "" then none else some s
                                   | none => none,
                         weight := rt.weight }]
            else acc2)
        acc)
    []

/-- The `(subset: …, traffic: …%)` suffix of the
VirtualService→DestinationRule edge reason (lines 141–145). -/
def destinationExtrasSuffix (dest : Destination) : String :=
  let subsetInfo := match dest.subset with
    | some s => if s = "" then none else some ("subset: " ++ s)
    | none => none
  let weightInfo := match dest.weight with
    | some w => some ("traffic: " ++ toString w ++ "%")
    | none => none
  let extras := String.intercalate ", " (([subsetInfo, weightInfo].filterMap id))
  if extras = "" then "" else " (" ++ extras ++ ")"

/-- The traffic-weight suffix of the direct VirtualService→Service edge
reason (lines 151–157). -/
def directEdgeWeightSuffix (dests : List Destination) : String :=
  let weights := dests.filterMap Destination.weight
  match weights with
  | [] => ""
  | [w] => " (traffic: " ++ toString w ++ "%)"
  | _ => " (traffic weights: " ++ String.intercalate "/" (weights.map toString) ++ "%)"

/-- One iteration of the `VS -> Gateway(s)` loop of `discoverFromService`
(lines 123–128): a string gateway other than `"mesh"` yields a
Gateway→VirtualService edge. -/
def gatewayStep (ns : String) (vsNode : TrafficNode) (g : GraphBuilderState) (gw : String) :
    GraphBuilderState :=
  if gw != "mesh" then
    let gwNode := makeNode "Gateway" gw (some ns) (roleForKind "Gateway")
    g.addEdge gwNode vsNode "Gateway is referenced by VirtualService"
  else g

/-- One iteration of the DestinationRule loop of `discoverFromService`
(lines 131–149): a matched destination whose host has a matching
DestinationRule marks `matchedAnyDestinationRule` and, when the rule has
a truthy name (`if (!drName) continue` skips both an absent and an
empty-string name), emits the VirtualService→DestinationRule→Service
edges. -/
def drStep (destinationRules : List DestinationRuleObj) (name ns : String)
    (vsNode svc : TrafficNode) (acc : GraphBuilderState × Bool) (dest : Destination) :
    GraphBuilderState × Bool :=
  match findMatchingDestinationRule destinationRules dest.host name ns with
  | none => acc
  | some dr =>
    match dr.name with
    | none => (acc.1, true)
    | some drName =>
      if drName = "" then (acc.1, true)
      else
        let drNode := makeNode "DestinationRule" drName (some ns) (roleForKind "DestinationRule")
        let g1 := acc.1.addEdge vsNode drNode
          ("VirtualService traffic policy via DestinationRule" ++ destinationExtrasSuffix dest)
        let g2 := g1.addEdge drNode svc "DestinationRule applies to this service host"
        (g2, true)

/-- The edge-emission block of `discoverFromService` for one
VirtualService that was found to hit the service (lines 116–161):
gateway edges, then VirtualService→DestinationRule→Service edges for
each matched destination with a matching DestinationRule, and the direct
VirtualService→Service edge only when no DestinationRule matched any
destination. -/
def processMatchedVirtualService (gb : GraphBuilderState) (vsName : String)
    (gateways : List String) (matchedDestinations : List Destination)
    (destinationRules : List DestinationRuleObj) (name ns : String) : GraphBuilderState :=
  let svc := makeNode "Service" name (some ns) (roleForKind "Service")
  let vsNode := makeNode "VirtualService" vsName (some ns) (roleForKind "VirtualService")
  let gb1 := gateways.foldl (gatewayStep ns vsNode) gb
  let res := matchedDestinations.foldl (drStep destinationRules name ns vsNode svc) (gb1, false)
  if res.2 then res.1
  else res.1.addEdge vsNode svc
    ("VirtualService routes to Service via destination.host" ++ directEdgeWeightSuffix matchedDestinations)

/-- The VirtualService loop of `discoverFromService` (lines 82–162):
skip VirtualServices with a falsy name, collect matched destinations,
and emit edges only when at least one destination hit the service. -/
def discoverServiceIstioUpstream (gb : GraphBuilderState) (name ns : String)
    (destinationRules : List DestinationRuleObj) (vss : List VirtualServiceObj) :
    GraphBuilderState :=
  vss.foldl
    (fun g vs =>
      match vs.name with
      | none => g
      | some vsName =>
        if vsName = "" then g
        else
          let dests := collectMatchedDestinations vs.http name ns
          if dests.isEmpty then g
          else processMatchedVirtualService g vsName vs.gateways dests destinationRules name ns)
    gb

/-- An EndpointSlice endpoint `targetRef` (kind/name/namespace, each
possibly absent). -/
structure TargetRef where
  kind : Option String
  name : Option String
  ns : Option String
deriving DecidableEq, Repr

/-- One entry of an EndpointSlice `endpoints` array. -/
structure EndpointEntry where
  targetRef : Option TargetRef
deriving DecidableEq, Repr

/-- An EndpointSlice as consumed by `discoverFromService`:
`metadata.name` and the `endpoints` array. -/
structure EndpointSliceObj where
  name : Option String
  endpoints : Option (List EndpointEntry)
deriving DecidableEq, Repr

/-- One iteration of the endpoints loop of `discoverFromService` (lines
39–48): a `targetRef` of kind `Pod` with a truthy name yields an
EndpointSlice→Pod edge, unless a (truthy) focus pod name is set and the
target is a different pod. -/
def endpointStep (ns : String) (esNode : TrafficNode) (focusPodName : Option String)
    (g2 : GraphBuilderState) (ep : EndpointEntry) : GraphBuilderState :=
  match ep.targetRef with
  | none => g2
  | some tr =>
    match tr.name with
    | none => g2
    | some trName =>
      if tr.kind == some "Pod" && trName != "" then
        if (match focusPodName with
            | some f => f != "" && trName != f
            | none => false) then g2
        else
          let podNode := makeNode "Pod" trName (some (tr.ns.getD ns)) (roleForKind "Pod")
          g2.addEdge esNode podNode "EndpointSlice endpoint targetRef -> Pod"
      else g2

/-- One iteration of the EndpointSlice loop of `discoverFromService`
(lines 30–49): a slice with a truthy name yields a Service→EndpointSlice
edge, then its endpoints are walked. -/
def sliceStep (ns : String) (svc : TrafficNode) (focusPodName : Option String)
    (g : GraphBuilderState) (es : EndpointSliceObj) : GraphBuilderState :=
  match es.name with
  | none => g
  | some esName =>
    if esName = "" then g
    else
      let esNode := makeNode "EndpointSlice" esName (some ns) (roleForKind "EndpointSlice")
      let g1 := g.addEdge svc esNode "Service selects EndpointSlice (kubernetes.io/service-name)"
      (es.endpoints.getD []).foldl (endpointStep ns esNode focusPodName) g1

/-- The downstream hop of `discoverFromService` (lines 23–49):
Service → EndpointSlice → Pod, where the Pod hop is limited to the focus
pod when a (truthy) `focusPodName` is supplied. -/
def discoverServiceDownstream (gb : GraphBuilderState) (name ns : String)
    (focusPodName : Option String) (slices : List EndpointSliceObj) : GraphBuilderState :=
  let svc := makeNode "Service" name (some ns) (roleForKind "Service")
  slices.foldl (sliceStep ns svc focusPodName) gb

/-! ## Reverse-dependency host matching (`reverseLookup.ts`) -/

/-- The candidate host spellings built by `virtualServiceReferencesService`
(lines 312–317): short name, `name.namespace`, `name.namespace.svc`, and
the fully-qualified form. -/
def reverseLookupServiceHostCandidates (svcName ns : String) : List String :=
  [svcName, svcName ++ "." ++ ns, svcName ++ "." ++ ns ++ ".svc",
   svcName ++ "." ++ ns ++ ".svc.cluster.local"]

/-- The per-route host test of `virtualServiceReferencesService`
(`host && candidates.has(host)`). -/
def reverseRouteHostMatches (host svcName ns : String) : Bool :=
  host != "" && (reverseLookupServiceHostCandidates svcName ns).contains host

/-! ## Network-policy evaluator (`discover/networkPolicyFlow.ts`) -/

/-- The `port` field of one entry of an ingress rule's `ports` array:
a number, a named port string, or anything else/absent (both treated
permissively by the evaluator). -/
inductive NPPortVal
  | num (n : Int)
  | named (s : String)
  | absent
deriving DecidableEq, Repr

/-- One `from` entry of an ingress rule; each selector is present iff its
`matchLabels` field is (an empty object is present). -/
structure NPFromEntry where
  podSelector : Option (List (String × String))
  namespaceSelector : Option (List (String × String))
deriving DecidableEq, Repr

/-- One ingress rule: optional `ports` array and optional `from` array
(`none` models an absent / non-array field). -/
structure NPIngressRule where
  ports : Option (List NPPortVal)
  fromArr : Option (List NPFromEntry)
deriving DecidableEq, Repr

/-- A NetworkPolicy as consumed by `discoverNetworkPoliciesForTraffic`:
name, `spec.policyTypes`, `spec.podSelector.matchLabels`, and
`spec.ingress`. -/
structure NetworkPolicyObj where
  name : String
  policyTypes : List String
  podSelector : Option (List (String × String))
  ingress : Option (List NPIngressRule)
deriving DecidableEq, Repr

/-- The `NetworkPolicyFinding` record of `networkPolicyFlow.ts`; the
optional `allowFromSource` field is spread in only when defined. -/
structure NetworkPolicyFinding where
  policy : String
  selectsDestinationPod : Bool
  policyTypes : List String
  denyAllIngress : Bool
  allowFromSource : Option Bool
  note : String
deriving DecidableEq, Repr

/-- The `rule.ports.some(...)` check (lines 107–113): a numeric port must
equal the destination port; a named or absent port is treated
permissively. -/
def portAllowed (destPort : Int) (prs : List NPPortVal) : Bool :=
  prs.any fun pr =>
    match pr with
    | .num n => n == destPort
    | .named _ => true
    | .absent => true

/-- Evaluation of one `from` entry against the source pod and namespace
labels (lines 126–155), in source order: podSelector, then
namespaceSelector, then both combined; yields the ALLOW note of the first
match. -/
def evalFromEntry (srcPodLabels srcNsLabels : Option (List (String × String)))
    (fr : NPFromEntry) : Option String :=
  if (match fr.podSelector with
      | some ml => matchLabels srcPodLabels (some ml)
      | none => false) then
    some "ALLOW: ingress rule matches source podSelector."
  else if (match fr.namespaceSelector with
      | some ml => nsMatchLabels srcNsLabels (some ml)
      | none => false) then
    some "ALLOW: ingress rule matches source namespaceSelector."
  else if (match fr.namespaceSelector, fr.podSelector with
      | some nml, some pml =>
        nsMatchLabels srcNsLabels (some nml) && matchLabels srcPodLabels (some pml)
      | _, _ => false) then
    some "ALLOW: ingress rule matches both namespaceSelector and podSelector."
  else none

/-- Evaluation of one ingress rule (lines 104–158): the optional port
restriction must pass (skipped when `destPort` is falsy or `ports` is
absent/empty), then a rule with no `from` entries allows all sources,
otherwise the first matching `from` entry wins. -/
def evalRule (destPort : Option Int) (srcPodLabels srcNsLabels : Option (List (String × String)))
    (rule : NPIngressRule) : Option String :=
  let portOk :=
    match destPort, rule.ports with
    | some dp, some prs => if dp != 0 && !prs.isEmpty then portAllowed dp prs else true
    | _, _ => true
  if !portOk then none
  else
    let fromArr := rule.fromArr.getD []
    if fromArr.isEmpty then
      some "ALLOW: ingress rule allows all sources (no \x27from\x27 restrictions)."
    else fromArr.findSome? (evalFromEntry srcPodLabels srcNsLabels)

/-- The body of the per-policy loop of `discoverNetworkPoliciesForTraffic`
(lines 72–174): `none` when the policy does not select the destination
pod, otherwise the finding with its deny-all flag, best-effort
allow/deny verdict and note. -/
def evalPolicy (podLabels : List (String × String)) (podName : String)
    (srcPodName : Option String) (srcPodLabels srcNsLabels : Option (List (String × String)))
    (destPort : Option Int) (p : NetworkPolicyObj) : Option NetworkPolicyFinding :=
  if !(matchLabels (some podLabels) p.podSelector) then none
  else
    let pt := p.policyTypes
    let hasIngressType := pt.contains "Ingress" || p.ingress.isSome
    let denyAllIngress := hasIngressType
      && (match p.ingress with | some rs => rs.isEmpty | none => false)
    let srcTruthy : Bool := match srcPodName with | some s => s != "" | none => false
    let verdict : Option Bool × String :=
      if srcTruthy && hasIngressType then
        if denyAllIngress then
          (some false, "DENY: policy has Ingress with empty rules (deny-all ingress).")
        else
          match p.ingress with
          | none =>
            (none, "Policy has Ingress type but rules are not explicitly listed; cannot fully evaluate.")
          | some rules =>
            if rules.isEmpty then
              (none, "Policy has Ingress type but rules are not explicitly listed; cannot fully evaluate.")
            else
              match rules.findSome? (evalRule destPort srcPodLabels srcNsLabels) with
              | some n => (some true, n)
              | none =>
                (some false, "POTENTIAL DENY: no ingress rule matched source pod/namespace (may block traffic).")
      else (none, "NetworkPolicy selects destination pod " ++ podName ++ ".")
    some { policy := p.name, selectsDestinationPod := true, policyTypes := pt,
           denyAllIngress := denyAllIngress, allowFromSource := verdict.1, note := verdict.2 }

/-- `discoverNetworkPoliciesForTraffic` (lines 31–177), given the listed
policies of the namespace: only the first `maxPolicies` (default 20)
policies are examined; each either yields one finding or is skipped.
The function has no warning channel at all — its only output is the
finding list. -/
def discoverNetworkPoliciesForTraffic (podLabels : List (String × String)) (podName : String)
    (srcPodName : Option String) (srcPodLabels srcNsLabels : Option (List (String × String)))
    (destPort : Option Int) (maxPolicies : Option Nat) (pols : List NetworkPolicyObj) :
    List NetworkPolicyFinding :=
  (pols.take (maxPolicies.getD 20)).filterMap
    (evalPolicy podLabels podName srcPodName srcPodLabels srcNsLabels destPort)

/-! ## Impact rules (`podHealth/impactRules.ts`, `impactAnalyzer.ts`) -/

/-- The `ImpactSeverity` enum, ordered CRITICAL > HIGH > MEDIUM > LOW >
NONE. -/
inductive ImpactSeverity
  | CRITICAL
  | HIGH
  | MEDIUM
  | LOW
  | NONE
deriving DecidableEq, Repr

/-- The `ImpactAction` union (`"delete" | "update"`). -/
inductive ImpactAction
  | delete
  | update
deriving DecidableEq, Repr

/-- Identity of the impact target. -/
structure ImpactTarget where
  kind : String
  name : String
  ns : Option String
deriving DecidableEq, Repr

/-- One reverse-lookup hit (kind/name/namespace/refType), as returned by
the `reverseLookup.ts` finders. -/
structure RefHit where
  kind : String
  name : String
  ns : Option String
  refType : String
deriving DecidableEq, Repr

/-- One entry of `impactedResources`. -/
structure ImpactedResource where
  kind : String
  name : String
  ns : Option String
  impactType : String
  severity : ImpactSeverity
deriving DecidableEq, Repr

/-- The `ImpactResult` record. -/
structure ImpactResult where
  action : ImpactAction
  changeSummary : Option String
  target : ImpactTarget
  severity : ImpactSeverity
  summary : String
  impactedResources : List ImpactedResource
deriving DecidableEq, Repr

/-- `analyzeConfigMapImpact` from `impactRules.ts`, given the workloads
found by `findWorkloadsReferencing`. -/
def analyzeConfigMapImpact (action : ImpactAction) (changeSummary : Option String)
    (target : ImpactTarget) (consumers : List RefHit) : ImpactResult :=
  { action := action, changeSummary := changeSummary, target := target,
    severity := if consumers.length != 0 then .MEDIUM else .NONE,
    summary := if consumers.length != 0 then
        "Deleting this ConfigMap will restart dependent pods. Applications may fail to start if configuration is required."
      else "No workloads reference this ConfigMap.",
    impactedResources := consumers.map fun c =>
      { kind := c.kind, name := c.name, ns := c.ns, impactType := c.refType,
        severity := .MEDIUM } }

/-- `analyzeSecretImpact` from `impactRules.ts`. -/
def analyzeSecretImpact (action : ImpactAction) (changeSummary : Option String)
    (target : ImpactTarget) (consumers : List RefHit) : ImpactResult :=
  { action := action, changeSummary := changeSummary, target := target,
    severity := if consumers.length != 0 then .HIGH else .NONE,
    summary := if consumers.length != 0 then
        "Deleting this Secret will cause authentication or startup failures in dependent workloads."
      else "No workloads reference this Secret.",
    impactedResources := consumers.map fun c =>
      { kind := c.kind, name := c.name, ns := c.ns, impactType := c.refType,
        severity := .HIGH } }

/-- `analyzeServiceImpact` from `impactRules.ts`, given the referencing
Ingresses, VirtualServices and selector-backed workloads. -/
def analyzeServiceImpact (action : ImpactAction) (changeSummary : Option String)
    (target : ImpactTarget) (ing vs backedWorkloads : List RefHit) : ImpactResult :=
  let workloadImpacts := backedWorkloads.map fun w =>
    ({ kind := w.kind, name := w.name, ns := w.ns, impactType := w.refType,
       severity := .HIGH } : ImpactedResource)
  let impacted :=
    (ing.map fun x =>
      ({ kind := x.kind, name := x.name, ns := x.ns, impactType := x.refType,
         severity := .CRITICAL } : ImpactedResource))
    ++ (vs.map fun x =>
      ({ kind := x.kind, name := x.name, ns := x.ns, impactType := x.refType,
         severity := .CRITICAL } : ImpactedResource))
    ++ workloadImpacts
  let severity : ImpactSeverity :=
    if ing.length + vs.length > 0 then .CRITICAL
    else if backedWorkloads.length > 0 then .HIGH
    else .LOW
  { action := action, changeSummary := changeSummary, target := target,
    severity := severity,
    summary :=
      match action with
      | .delete =>
        if impacted.length != 0 then
          "Deleting this Service will break routing rules (Ingress/VirtualService) and stop traffic from reaching workloads behind the Service selector."
        else
          "Deleting this Service removes the stable service endpoint; no Ingress/VirtualService routes found and no selector-backed workloads detected."
      | .update =>
        match changeSummary with
        | some cs =>
          if cs != "" then
            "Updating this Service (" ++ cs ++ ") may change which pods receive traffic (selector/ports). Routing rules remain, but traffic distribution could change."
          else
            "Updating this Service may change which pods receive traffic (selector/ports). Routing rules remain, but traffic distribution could change."
        | none =>
          "Updating this Service may change which pods receive traffic (selector/ports). Routing rules remain, but traffic distribution could change.",
    impactedResources := impacted }

/-- `analyzeGatewayImpact` from `impactRules.ts`, given the
VirtualServices that bind to the gateway. -/
def analyzeGatewayImpact (action : ImpactAction) (changeSummary : Option String)
    (target : ImpactTarget) (vss : List RefHit) : ImpactResult :=
  let impacted := vss.map fun v =>
    ({ kind := v.kind, name := v.name, ns := v.ns, impactType := v.refType,
       severity := .CRITICAL } : ImpactedResource)
  let severity : ImpactSeverity := if impacted.length != 0 then .CRITICAL else .HIGH
  { action := action, changeSummary := changeSummary, target := target,
    severity := severity,
    summary :=
      match action with
      | .delete =>
        if impacted.length != 0 then
          "Deleting this Gateway will break ingress traffic handled by VirtualServices that reference it."
        else
          "Deleting this Gateway will remove an ingress listener; no VirtualServices in the same namespace explicitly reference it."
      | .update =>
        match changeSummary with
        | some cs =>
          if cs != "" then
            "Updating this Gateway (" ++ cs ++ ") may alter listeners/hosts/tls settings and change which traffic is accepted."
          else
            "Updating this Gateway may alter listeners/hosts/tls settings and change which traffic is accepted."
        | none =>
          "Updating this Gateway may alter listeners/hosts/tls settings and change which traffic is accepted.",
    impactedResources := impacted }

/-- Spec-side severity maximum over an `impactedResources` list (the
spec's "maximum severity among impacted resources"), with `NONE` for an
empty list; used to compare the per-kind rules' overall severity against
the spec's description. -/
def sevRank : ImpactSeverity → Nat
  | .CRITICAL => 4
  | .HIGH => 3
  | .MEDIUM => 2
  | .LOW => 1
  | .NONE => 0

/-- The larger of two severities under the CRITICAL > HIGH > MEDIUM >
LOW > NONE order. -/
def maxSev (a b : ImpactSeverity) : ImpactSeverity :=
  if sevRank b ≤ sevRank a then a else b

/-- Spec-side maximum severity of a list of impacted resources. -/
def specMaxSeverity : List ImpactedResource → ImpactSeverity
  | [] => .NONE
  | r :: rest => maxSev r.severity (specMaxSeverity rest)

/-! ## Traffic-query validation (`extension.ts`, `analyzeTrafficFlow`) -/

/-- JavaScript `String.prototype.trim`, on the character list. -/
def jsTrim (s : String) : String :=
  ⟨((s.data.dropWhile Char.isWhitespace).reverse.dropWhile Char.isWhitespace).reverse⟩

/-- The raw arguments of `analyzeTrafficFlow`; `kind`/`name` are `none`
when absent at runtime (the source guards with `rawArgs.kind || ""`). -/
structure RawTrafficFlowArgs where
  kind : Option String
  name : Option String
  ns : Option String
  maxDepth : Option Nat
  includeIstio : Option Bool
deriving DecidableEq, Repr

/-- `analyzeTrafficFlow` from `extension.ts` (lines 2071–2094), with the
part after validation — the start-object existence check against the
cluster, the discovery run and the final build — abstracted as a
continuation `rest` of the trimmed kind and name.  The validation itself
makes no cluster call: it rejects when the trimmed kind or name is
empty, before `rest` is ever consulted. -/
def analyzeTrafficFlow (rest : String → String → Except String TrafficGraph)
    (args : RawTrafficFlowArgs) : Except String TrafficGraph :=
  let kind := jsTrim (args.kind.getD "")
  let name := jsTrim (args.name.getD "")
  if kind = "" || name = "" then
    Except.error "analyzeTrafficFlow requires kind and name"
  else rest kind name

/-! ## Basic lemmas about the graph accumulator -/

theorem addNode_edges (s : GraphBuilderState) (n : TrafficNode) :
    (s.addNode n).edges = s.edges := rfl

theorem mem_setNode {nodes : List TrafficNode} {n m : TrafficNode}
    (h : m ∈ setNode nodes n) : m ∈ nodes ∨ m = n := by
  unfold setNode at h
  split at h
  · rcases List.mem_map.1 h with ⟨x, hx, hxm⟩
    by_cases hc : (x.id == n.id) = true
    · right
      rw [← hxm]
      simp [hc]
    · left
      rw [← hxm]
      simpa [hc] using hx
  · rcases List.mem_append.1 h with h | h
    · exact Or.inl h
    · exact Or.inr (by simpa using h)

theorem addNode_nodes_cases {s : GraphBuilderState} {n m : TrafficNode}
    (h : m ∈ (s.addNode n).nodes) : m ∈ s.nodes ∨ m = n :=
  mem_setNode h

theorem addEdge_nodes (s : GraphBuilderState) (f t : TrafficNode) (r : String) :
    (s.addEdge f t r).nodes = ((s.addNode f).addNode t).nodes := by
  simp only [GraphBuilderState.addEdge]
  split <;> rfl

theorem addEdge_nodes_cases {s : GraphBuilderState} {f t : TrafficNode} {r : String}
    {m : TrafficNode} (h : m ∈ (s.addEdge f t r).nodes) : m ∈ s.nodes ∨ m = f ∨ m = t := by
  rw [addEdge_nodes] at h
  rcases addNode_nodes_cases h with h' | h'
  · rcases addNode_nodes_cases h' with h'' | h''
    · exact Or.inl h''
    · exact Or.inr (Or.inl h'')
  · exact Or.inr (Or.inr h')

theorem edgePred_eq {e : TrafficEdge} {fid tid r : String} :
    (e.«from» == fid && e.«to» == tid && e.reason == r) = true ↔ e = ⟨fid, tid, r⟩ := by
  cases e
  simp [TrafficEdge.mk.injEq, Bool.and_eq_true, beq_iff_eq, and_assoc]

theorem addEdge_edges (s : GraphBuilderState) (f t : TrafficNode) (r : String) :
    (s.addEdge f t r).edges =
      if (⟨f.id, t.id, r⟩ : TrafficEdge) ∈ s.edges then s.edges
      else s.edges ++ [⟨f.id, t.id, r⟩] := by
  have hany : (s.edges.any fun e => e.«from» == f.id && e.«to» == t.id && e.reason == r) = true
      ↔ (⟨f.id, t.id, r⟩ : TrafficEdge) ∈ s.edges := by
    rw [List.any_eq_true]
    constructor
    · rintro ⟨e, he, hp⟩
      rw [edgePred_eq.1 hp] at he
      exact he
    · intro h
      exact ⟨_, h, edgePred_eq.2 rfl⟩
  by_cases h : (⟨f.id, t.id, r⟩ : TrafficEdge) ∈ s.edges
  · simp only [GraphBuilderState.addEdge, addNode_edges, hany.2 h, if_true, h]
  · have : (s.edges.any fun e => e.«from» == f.id && e.«to» == t.id && e.reason == r) = false := by
      rw [Bool.eq_false_iff]
      intro hc
      exact h (hany.1 hc)
    simp only [GraphBuilderState.addEdge, addNode_edges, this, Bool.false_eq_true, if_false, h]

theorem addEdge_mem_self (s : GraphBuilderState) (f t : TrafficNode) (r : String) :
    (⟨f.id, t.id, r⟩ : TrafficEdge) ∈ (s.addEdge f t r).edges := by
  rw [addEdge_edges]
  split
  · assumption
  · simp

theorem addEdge_mono {s : GraphBuilderState} (f t : TrafficNode) (r : String)
    {e : TrafficEdge} (he : e ∈ s.edges) : e ∈ (s.addEdge f t r).edges := by
  rw [addEdge_edges]
  split
  · exact he
  · exact List.mem_append_left _ he

theorem addEdge_cases {s : GraphBuilderState} {f t : TrafficNode} {r : String}
    {e : TrafficEdge} (he : e ∈ (s.addEdge f t r).edges) :
    e ∈ s.edges ∨ e = ⟨f.id, t.id, r⟩ := by
  rw [addEdge_edges] at he
  split at he
  · exact Or.inl he
  · rcases List.mem_append.1 he with h | h
    · exact Or.inl h
    · exact Or.inr (by simpa using h)

theorem addEdge_edges_of_mem {s : GraphBuilderState} {f t : TrafficNode} {r : String}
    (h : (⟨f.id, t.id, r⟩ : TrafficEdge) ∈ s.edges) : (s.addEdge f t r).edges = s.edges := by
  rw [addEdge_edges, if_pos h]

/-- De-duplication invariant of a builder state: node ids are pairwise
distinct and edge triples are pairwise distinct. -/
def InvGB (s : GraphBuilderState) : Prop :=
  (s.nodes.map TrafficNode.id).Nodup ∧ s.edges.Nodup

theorem nodup_ids_setNode {nodes : List TrafficNode} {n : TrafficNode}
    (h : (nodes.map TrafficNode.id).Nodup) :
    ((setNode nodes n).map TrafficNode.id).Nodup := by
  unfold setNode
  split
  · have heq : (nodes.map (fun m => if m.id == n.id then n else m)).map TrafficNode.id
        = nodes.map TrafficNode.id := by
      rw [List.map_map]
      apply List.map_congr_left
      intro m _
      by_cases hc : (m.id == n.id) = true
      · simp only [Function.comp, hc, if_true]
        exact (beq_iff_eq.1 hc).symm
      · simp [Function.comp, hc]
    rw [heq]
    exact h
  · rename_i hany
    rw [List.map_append, List.nodup_append]
    refine ⟨h, by simp, ?_⟩
    intro x hx hx'
    simp only [List.map_cons, List.map_nil, List.mem_cons, List.not_mem_nil, or_false] at hx'
    rcases List.mem_map.1 hx with ⟨m, hm, hmx⟩
    apply hany
    rw [List.any_eq_true]
    exact ⟨m, hm, beq_iff_eq.2 (by rw [hmx, hx'])⟩

theorem invGB_addNode {s : GraphBuilderState} (h : InvGB s) (n : TrafficNode) :
    InvGB (s.addNode n) :=
  ⟨nodup_ids_setNode h.1, h.2⟩

theorem invGB_addEdge {s : GraphBuilderState} (h : InvGB s) (f t : TrafficNode) (r : String) :
    InvGB (s.addEdge f t r) := by
  refine ⟨?_, ?_⟩
  · rw [show (s.addEdge f t r).nodes = ((s.addNode f).addNode t).nodes from addEdge_nodes s f t r]
    exact (invGB_addNode (invGB_addNode h f) t).1
  · rw [addEdge_edges]
    split
    · exact h.2
    · rename_i hmem
      rw [List.nodup_append]
      refine ⟨h.2, by simp, ?_⟩
      intro x hx hx'
      simp only [List.mem_cons, List.not_mem_nil, or_false] at hx'
      rw [hx'] at hx
      exact hmem hx

theorem invGB_applyOp {s : GraphBuilderState} (h : InvGB s) (op : GraphOp) :
    InvGB (applyOp s op) := by
  cases op with
  | addNode n => exact invGB_addNode h n
  | addEdge f t r => exact invGB_addEdge h f t r
  | addWarning w => exact h

theorem invGB_runOps {s : GraphBuilderState} (h : InvGB s) (ops : List GraphOp) :
    InvGB (runOps s ops) := by
  induction ops generalizing s with
  | nil => exact h
  | cons op ops ih => exact ih (invGB_applyOp h op)

theorem invGB_new (start : TrafficNode) : InvGB (GraphBuilderState.new start) := by
  constructor
  · simp [GraphBuilderState.new, GraphBuilderState.addNode, setNode]
  · simp [GraphBuilderState.new, GraphBuilderState.addNode, setNode]

/-- C1: for every sequence of `addNode`/`addEdge` (and `addWarning`)
calls on a `GraphBuilder`, the graph returned by `build()` has pairwise
distinct node ids and pairwise distinct `(from, to, reason)` edge
triples, and invoking `addEdge` a second time with identical arguments
leaves the edge list length unchanged. -/
theorem C1_graphBuilder_dedup (start : TrafficNode) (ops : List GraphOp) :
    (((runOps (GraphBuilderState.new start) ops).build.nodes.map TrafficNode.id).Nodup) ∧
    ((runOps (GraphBuilderState.new start) ops).build.edges.Nodup) ∧
    (∀ f t r, ((((runOps (GraphBuilderState.new start) ops).addEdge f t r).addEdge f t r).edges.length)
        = (((runOps (GraphBuilderState.new start) ops).addEdge f t r).edges.length)) := by
  have hinv := invGB_runOps (invGB_new start) ops
  refine ⟨hinv.1, hinv.2, ?_⟩
  intro f t r
  rw [addEdge_edges_of_mem (addEdge_mem_self _ f t r)]

/-! ## Claims about selector semantics, impact rules, validation, caps -/

/-- C4: for every label map and selector, an empty or absent selector
makes the network-policy-context matcher `matchLabels` return `true`
(select all) while the service-to-pod matcher `podLabelsMatchSelector`
returns `false` (select nothing); for a non-empty selector both agree
and return `true` iff every selector key is present in the label map
with an equal value. -/
theorem C4_empty_selector_asymmetry (labels : Option (List (String × String)))
    (kv : String × String) (rest : List (String × String)) :
    matchLabels labels none = true ∧
    matchLabels labels (some []) = true ∧
    podLabelsMatchSelector labels none = false ∧
    podLabelsMatchSelector labels (some []) = false ∧
    podLabelsMatchSelector labels (some (kv :: rest)) = matchLabels labels (some (kv :: rest)) ∧
    (matchLabels labels (some (kv :: rest)) = true ↔
      ∀ p ∈ kv :: rest, labelGet labels p.1 = some p.2) := by
  refine ⟨rfl, rfl, rfl, rfl, ?_, ?_⟩
  · cases labels <;> rfl
  · cases labels with
    | none =>
      simp only [matchLabels, List.isEmpty_cons, Bool.false_eq_true, if_false, labelGet]
      constructor
      · intro h
        exact absurd h (by simp)
      · intro h
        exact absurd (h kv (List.mem_cons_self kv rest)) (by simp)
    | some pl =>
      simp [matchLabels, matchEntries, labelGet, List.all_eq_true]

/-- C7: deleting a ConfigMap or Secret with zero referencing workloads
yields severity NONE and the "no impact" summary; with at least one
referencing workload the severity is MEDIUM (ConfigMap) or HIGH
(Secret), and every impacted resource carries that same per-kind
severity. -/
theorem C7_config_secret_impact (action : ImpactAction) (cs : Option String)
    (target : ImpactTarget) (c : RefHit) (consumers : List RefHit) :
    (analyzeConfigMapImpact action cs target []).severity = .NONE ∧
    (analyzeConfigMapImpact action cs target []).summary = "No workloads reference this ConfigMap." ∧
    (analyzeSecretImpact action cs target []).severity = .NONE ∧
    (analyzeSecretImpact action cs target []).summary = "No workloads reference this Secret." ∧
    (analyzeConfigMapImpact action cs target (c :: consumers)).severity = .MEDIUM ∧
    (∀ r ∈ (analyzeConfigMapImpact action cs target (c :: consumers)).impactedResources,
      r.severity = .MEDIUM) ∧
    (analyzeSecretImpact action cs target (c :: consumers)).severity = .HIGH ∧
    (∀ r ∈ (analyzeSecretImpact action cs target (c :: consumers)).impactedResources,
      r.severity = .HIGH) := by
  refine ⟨rfl, rfl, rfl, rfl, rfl, ?_, rfl, ?_⟩
  · intro r hr
    simp only [analyzeConfigMapImpact, List.mem_map] at hr
    rcases hr with ⟨x, _, hx⟩
    rw [← hx]
  · intro r hr
    simp only [analyzeSecretImpact, List.mem_map] at hr
    rcases hr with ⟨x, _, hx⟩
    rw [← hx]

/-- Witness for C7 at a concrete ConfigMap target with one consumer. -/
theorem C7_witness :
    (analyzeConfigMapImpact .delete none ⟨"ConfigMap", "app-config", some "default"⟩ []).severity
        = .NONE ∧
    ({ kind := "Deployment", name := "web", ns := some "default",
       impactType := "envFrom:app-config", severity := .MEDIUM } : ImpactedResource).severity
        = .MEDIUM :=
  ⟨(C7_config_secret_impact .delete none ⟨"ConfigMap", "app-config", some "default"⟩
      ⟨"Deployment", "web", some "default", "envFrom:app-config"⟩ []).1,
   (C7_config_secret_impact .delete none ⟨"ConfigMap", "app-config", some "default"⟩
      ⟨"Deployment", "web", some "default", "envFrom:app-config"⟩ []).2.2.2.2.2.1
      { kind := "Deployment", name := "web", ns := some "default",
        impactType := "envFrom:app-config", severity := .MEDIUM } (by simp [analyzeConfigMapImpact])⟩

/-- C9: a traffic query whose kind or name trims to the empty string is
rejected with the validation error regardless of what the rest of the
pipeline (cluster existence check, discovery, build) would do — no
cluster interaction can occur and no graph is returned. -/
theorem C9_malformed_target_rejected (rest : String → String → Except String TrafficGraph)
    (args : RawTrafficFlowArgs)
    (h : jsTrim (args.kind.getD "") = "" ∨ jsTrim (args.name.getD "") = "") :
    analyzeTrafficFlow rest args = Except.error "analyzeTrafficFlow requires kind and name" := by
  unfold analyzeTrafficFlow
  rcases h with h | h <;> simp [h]

/-- Witness for C9: an absent kind is rejected even though the
continuation would have produced a different outcome. -/
theorem C9_witness :
    analyzeTrafficFlow (fun _ _ => Except.error "cluster consulted")
      { kind := none, name := some "reviews", ns := none, maxDepth := none, includeIstio := none }
      = Except.error "analyzeTrafficFlow requires kind and name" :=
  C9_malformed_target_rejected _ _ (Or.inl rfl)

/-- C10: with the default cap (`maxPolicies` absent, defaulting to 20),
network policies past the first 20 of the namespace listing contribute
nothing to the findings — appending any further policies, even ones
that select the destination pod, leaves the result unchanged (and the
function has no warning output at all). -/
theorem C10_policy_cap (podLabels : List (String × String)) (podName : String)
    (srcPodName : Option String) (srcPodLabels srcNsLabels : Option (List (String × String)))
    (destPort : Option Int) (pols extra : List NetworkPolicyObj) (h : pols.length = 20) :
    discoverNetworkPoliciesForTraffic podLabels podName srcPodName srcPodLabels srcNsLabels
        destPort none (pols ++ extra)
      = discoverNetworkPoliciesForTraffic podLabels podName srcPodName srcPodLabels srcNsLabels
        destPort none pols := by
  unfold discoverNetworkPoliciesForTraffic
  congr 1
  simp only [Option.getD_none]
  rw [List.take_append_of_le_length (by omega)]

/-- Witness for C10: the 21st policy selects every pod (empty selector)
and is an explicit deny-all, yet produces no finding. -/
theorem C10_witness :
    discoverNetworkPoliciesForTraffic [] "dest" none none none none none
        (List.replicate 20 ⟨"np", [], some [("app", "other")], none⟩
          ++ [⟨"np21", ["Ingress"], none, some []⟩])
      = discoverNetworkPoliciesForTraffic [] "dest" none none none none none
        (List.replicate 20 ⟨"np", [], some [("app", "other")], none⟩) :=
  C10_policy_cap [] "dest" none none none none
    (List.replicate 20 ⟨"np", [], some [("app", "other")], none⟩)
    [⟨"np21", ["Ingress"], none, some []⟩] (by simp)

/-- C8: a network policy that selects the destination pod and has an
explicitly empty ingress-rule list always yields a finding with
`denyAllIngress = true`, and when a (truthy) source pod is supplied the
finding has `allowFromSource = false`. -/
theorem C8_deny_all_ingress (podLabels : List (String × String)) (podName : String)
    (srcPodName : Option String) (srcPodLabels srcNsLabels : Option (List (String × String)))
    (destPort : Option Int) (p : NetworkPolicyObj)
    (hsel : matchLabels (some podLabels) p.podSelector = true)
    (hing : p.ingress = some []) :
    ∃ f, evalPolicy podLabels podName srcPodName srcPodLabels srcNsLabels destPort p = some f
      ∧ f.denyAllIngress = true
      ∧ (∀ s, srcPodName = some s → s ≠ "" → f.allowFromSource = some false) := by
  by_cases hs : (match srcPodName with | some s => s != "" | none => false) = true
  · refine ⟨⟨p.name, true, p.policyTypes, true, some false,
      "DENY: policy has Ingress with empty rules (deny-all ingress)."⟩, ?_, rfl, ?_⟩
    · simp [evalPolicy, hsel, hing, hs]
    · intro s _ _
      rfl
  · refine ⟨⟨p.name, true, p.policyTypes, true, none,
      "NetworkPolicy selects destination pod " ++ podName ++ "."⟩, ?_, rfl, ?_⟩
    · simp [evalPolicy, hsel, hing, hs]
    · intro s hsome hne
      exfalso
      apply hs
      rw [hsome]
      simpa using hne

/-- Witness for C8: a policy with `policyTypes: [Ingress]`, an empty
(select-all) pod selector and `ingress: []`, with a source pod given. -/
theorem C8_witness :
    ∃ f, evalPolicy [] "dest" (some "src") none none none
        ⟨"deny-all", ["Ingress"], none, some []⟩ = some f
      ∧ f.denyAllIngress = true
      ∧ (∀ s, (some "src" : Option String) = some s → s ≠ "" → f.allowFromSource = some false) :=
  C8_deny_all_ingress [] "dest" (some "src") none none none
    ⟨"deny-all", ["Ingress"], none, some []⟩ rfl rfl

/-! ## String helpers for host matching -/

theorem str_append_right_ne_empty (a b : String) (hb : b.data ≠ []) : (a ++ b) ≠ "" := by
  intro h
  have h2 : a.data ++ b.data = ([] : List Char) := by
    simpa [String.data_append] using congrArg String.data h
  exact hb (List.append_eq_nil.1 h2).2

theorem strStartsWith_append (a b : String) : strStartsWith (a ++ b) a = true := by
  unfold strStartsWith
  rw [List.isPrefixOf_iff_prefix, String.data_append]
  exact List.prefix_append _ _

/-- C3 counterexample: the host `"reviews.x"` satisfies the claimed
condition (it starts with `"reviews."`) and is accepted by the traffic
discovery matcher, but the reverse-dependency matcher rejects it — so
the claimed iff does not hold for both components. -/
theorem C3_counterexample :
    strStartsWith "reviews.x" ("reviews" ++ ".") = true ∧
    vsHostMatchesService "reviews.x" "reviews" "default" = true ∧
    reverseRouteHostMatches "reviews.x" "reviews" "default" = false := by
  refine ⟨?_, ?_, ?_⟩ <;> decide

/-- C3 amended: the traffic-discovery matcher of `discoverFromService`
recognizes a host iff it equals the service name, starts with
`name.`, or equals the fully-qualified form; the reverse-dependency
matcher of `virtualServiceReferencesService` instead recognizes exactly
the four candidate spellings `S`, `S.N`, `S.N.svc`,
`S.N.svc.cluster.local`; the spellings `S`, `S.N` and
`S.N.svc.cluster.local` are recognized by both (so "reviews",
"reviews.default" and "reviews.default.svc.cluster.local" all name the
same destination in both components). -/
theorem C3_host_normalization (h S N : String) (hS : S ≠ "") :
    (vsHostMatchesService h S N = true ↔
      (h = S ∨ strStartsWith h (S ++ ".") = true
        ∨ h = S ++ "." ++ N ++ ".svc.cluster.local")) ∧
    (reverseRouteHostMatches h S N = true ↔
      (h ≠ "" ∧ (h = S ∨ h = S ++ "." ++ N ∨ h = S ++ "." ++ N ++ ".svc"
        ∨ h = S ++ "." ++ N ++ ".svc.cluster.local"))) ∧
    vsHostMatchesService S S N = true ∧
    vsHostMatchesService (S ++ "." ++ N) S N = true ∧
    vsHostMatchesService (S ++ "." ++ N ++ ".svc.cluster.local") S N = true ∧
    reverseRouteHostMatches S S N = true ∧
    reverseRouteHostMatches (S ++ "." ++ N) S N = true ∧
    reverseRouteHostMatches (S ++ "." ++ N ++ ".svc.cluster.local") S N = true := by
  have hdot : (S ++ "." ++ N) ≠ "" := by
    intro hcon
    have h2 : (S.data ++ (".").data) ++ N.data = ([] : List Char) := by
      simpa [String.data_append] using congrArg String.data hcon
    rcases List.append_eq_nil.1 h2 with ⟨h3, _⟩
    exact absurd (List.append_eq_nil.1 h3).2 (by decide)
  have hfqdn : (S ++ "." ++ N ++ ".svc.cluster.local") ≠ "" :=
    str_append_right_ne_empty _ _ (by decide)
  refine ⟨?_, ?_, ?_, ?_, ?_, ?_, ?_, ?_⟩
  · simp [vsHostMatchesService, Bool.or_eq_true, beq_iff_eq, or_assoc]
  · simp [reverseRouteHostMatches, reverseLookupServiceHostCandidates, Bool.and_eq_true,
      bne_iff_ne, List.elem_iff, List.mem_cons, beq_iff_eq]
  · simp [vsHostMatchesService]
  · have hpre : strStartsWith (S ++ "." ++ N) (S ++ ".") = true := by
      have : (S ++ "." ++ N) = (S ++ ".") ++ N := by rw [String.append_assoc]
      rw [this]
      exact strStartsWith_append _ _
    simp [vsHostMatchesService, hpre]
  · simp [vsHostMatchesService]
  · simp [reverseRouteHostMatches, reverseLookupServiceHostCandidates, bne_iff_ne, hS]
  · simp [reverseRouteHostMatches, reverseLookupServiceHostCandidates, bne_iff_ne, hdot]
  · simp [reverseRouteHostMatches, reverseLookupServiceHostCandidates, bne_iff_ne, hfqdn]

/-- Witness for C3 at the spec's example spellings in namespace
`default`. -/
theorem C3_witness :
    vsHostMatchesService "reviews.default" "reviews" "default" = true ∧
    reverseRouteHostMatches "reviews.default" "reviews" "default" = true :=
  ⟨(C3_host_normalization "reviews.default" "reviews" "default" (by decide)).2.2.2.1,
   (C3_host_normalization "reviews.default" "reviews" "default" (by decide)).2.2.2.2.2.2.1⟩

/-! ## Severity-maximum lemmas -/

theorem sevRank_le_four (s : ImpactSeverity) : sevRank s ≤ 4 := by
  cases s <;> simp [sevRank]

theorem specMax_critical : ∀ {l : List ImpactedResource},
    (∃ r ∈ l, r.severity = ImpactSeverity.CRITICAL) →
    specMaxSeverity l = ImpactSeverity.CRITICAL := by
  intro l
  induction l with
  | nil =>
    rintro ⟨r, hr, _⟩
    cases hr
  | cons a l ih =>
    rintro ⟨r, hr, hsev⟩
    rcases List.mem_cons.1 hr with h1 | h1
    · subst h1
      unfold specMaxSeverity maxSev
      rw [hsev]
      rw [if_pos (by simpa [sevRank] using sevRank_le_four (specMaxSeverity l))]
    · have hrec := ih ⟨r, h1, hsev⟩
      unfold specMaxSeverity
      rw [hrec]
      unfold maxSev
      split
      · rename_i hc
        cases ha : a.severity <;> simp [sevRank, ha] at hc ⊢
      · rfl

theorem specMax_all_eq {s : ImpactSeverity} : ∀ {l : List ImpactedResource}, l ≠ [] →
    (∀ r ∈ l, r.severity = s) → specMaxSeverity l = s := by
  intro l
  induction l with
  | nil =>
    intro hne _
    cases hne rfl
  | cons a l ih =>
    intro _ h
    have ha := h a (List.mem_cons_self a l)
    by_cases hl : l = []
    · subst hl
      simp [specMaxSeverity, maxSev, ha, sevRank]
    · have hrec := ih hl (fun r hr => h r (List.mem_cons_of_mem a hr))
      simp [specMaxSeverity, hrec, maxSev, ha]

/-- C6: the overall severity of a Service or Gateway impact result is
the maximum severity among its impacted resources when that list is
non-empty, and a fixed kind-specific value (LOW for Service, HIGH for
Gateway) when the list is empty. -/
theorem C6_overall_severity_is_max (action : ImpactAction) (cs : Option String)
    (target : ImpactTarget) (ing vs backed gwvss : List RefHit) :
    ((analyzeServiceImpact action cs target ing vs backed).impactedResources ≠ [] →
      (analyzeServiceImpact action cs target ing vs backed).severity
        = specMaxSeverity (analyzeServiceImpact action cs target ing vs backed).impactedResources) ∧
    ((analyzeServiceImpact action cs target ing vs backed).impactedResources = [] →
      (analyzeServiceImpact action cs target ing vs backed).severity = .LOW) ∧
    ((analyzeGatewayImpact action cs target gwvss).impactedResources ≠ [] →
      (analyzeGatewayImpact action cs target gwvss).severity
        = specMaxSeverity (analyzeGatewayImpact action cs target gwvss).impactedResources) ∧
    ((analyzeGatewayImpact action cs target gwvss).impactedResources = [] →
      (analyzeGatewayImpact action cs target gwvss).severity = .HIGH) := by
  refine ⟨?_, ?_, ?_, ?_⟩
  · intro hne
    cases ing with
    | cons i it =>
      have hcrit : ∃ r ∈ (analyzeServiceImpact action cs target (i :: it) vs backed).impactedResources,
          r.severity = ImpactSeverity.CRITICAL := by
        refine ⟨⟨i.kind, i.name, i.ns, i.refType, .CRITICAL⟩, ?_, rfl⟩
        simp [analyzeServiceImpact]
      rw [specMax_critical hcrit]
      simp [analyzeServiceImpact]
    | nil =>
      cases vs with
      | cons v vt =>
        have hcrit : ∃ r ∈ (analyzeServiceImpact action cs target [] (v :: vt) backed).impactedResources,
            r.severity = ImpactSeverity.CRITICAL := by
          refine ⟨⟨v.kind, v.name, v.ns, v.refType, .CRITICAL⟩, ?_, rfl⟩
          simp [analyzeServiceImpact]
        rw [specMax_critical hcrit]
        simp [analyzeServiceImpact]
      | nil =>
        cases backed with
        | nil =>
          exfalso
          apply hne
          simp [analyzeServiceImpact]
        | cons b bt =>
          have hall : ∀ r ∈ (analyzeServiceImpact action cs target [] [] (b :: bt)).impactedResources,
              r.severity = ImpactSeverity.HIGH := by
            intro r hr
            simp only [analyzeServiceImpact, List.map_nil, List.nil_append,
              List.mem_map] at hr
            rcases hr with ⟨x, _, hx⟩
            rw [← hx]
          rw [specMax_all_eq hne hall]
          simp [analyzeServiceImpact]
  · intro hempty
    have h1 : ing = [] ∧ vs = [] ∧ backed = [] := by
      constructor
      · cases ing with
        | nil => rfl
        | cons i it =>
          exfalso
          have : (⟨i.kind, i.name, i.ns, i.refType, .CRITICAL⟩ : ImpactedResource)
              ∈ (analyzeServiceImpact action cs target (i :: it) vs backed).impactedResources := by
            simp [analyzeServiceImpact]
          rw [hempty] at this
          cases this
      constructor
      · cases vs with
        | nil => rfl
        | cons v vt =>
          exfalso
          have : (⟨v.kind, v.name, v.ns, v.refType, .CRITICAL⟩ : ImpactedResource)
              ∈ (analyzeServiceImpact action cs target ing (v :: vt) backed).impactedResources := by
            simp [analyzeServiceImpact]
          rw [hempty] at this
          cases this
      · cases backed with
        | nil => rfl
        | cons b bt =>
          exfalso
          have : (⟨b.kind, b.name, b.ns, b.refType, .HIGH⟩ : ImpactedResource)
              ∈ (analyzeServiceImpact action cs target ing vs (b :: bt)).impactedResources := by
            simp [analyzeServiceImpact]
          rw [hempty] at this
          cases this
    simp [analyzeServiceImpact, h1.1, h1.2.1, h1.2.2]
  · intro hne
    cases gwvss with
    | nil =>
      exfalso
      apply hne
      simp [analyzeGatewayImpact]
    | cons g gt =>
      have hall : ∀ r ∈ (analyzeGatewayImpact action cs target (g :: gt)).impactedResources,
          r.severity = ImpactSeverity.CRITICAL := by
        intro r hr
        simp only [analyzeGatewayImpact, List.mem_map] at hr
        rcases hr with ⟨x, _, hx⟩
        rw [← hx]
      rw [specMax_all_eq hne hall]
      simp [analyzeGatewayImpact]
  · intro hempty
    have hg : gwvss = [] := by
      cases gwvss with
      | nil => rfl
      | cons g gt =>
        exfalso
        have : (⟨g.kind, g.name, g.ns, g.refType, .CRITICAL⟩ : ImpactedResource)
            ∈ (analyzeGatewayImpact action cs target (g :: gt)).impactedResources := by
          simp [analyzeGatewayImpact]
        rw [hempty] at this
        cases this
    simp [analyzeGatewayImpact, hg]

/-- Witness for C6: a Gateway referenced by one VirtualService, and an
unreferenced Service. -/
theorem C6_witness :
    ((analyzeGatewayImpact .delete none ⟨"Gateway", "gw", some "default"⟩
        [⟨"VirtualService", "vs1", some "default", "gateways:gw"⟩]).severity
      = specMaxSeverity (analyzeGatewayImpact .delete none ⟨"Gateway", "gw", some "default"⟩
        [⟨"VirtualService", "vs1", some "default", "gateways:gw"⟩]).impactedResources) ∧
    ((analyzeServiceImpact .delete none ⟨"Service", "svc", some "default"⟩ [] [] []).severity
      = .LOW) :=
  ⟨(C6_overall_severity_is_max .delete none ⟨"Gateway", "gw", some "default"⟩ [] [] []
      [⟨"VirtualService", "vs1", some "default", "gateways:gw"⟩]).2.2.1
      (by simp [analyzeGatewayImpact]),
   (C6_overall_severity_is_max .delete none ⟨"Service", "svc", some "default"⟩ [] [] []
      []).2.1 (by simp [analyzeServiceImpact])⟩

/-! ## Node-provenance lemmas for the downstream hop -/

theorem foldl_nodes_inv {α : Type} (good : TrafficNode → Prop)
    (step : GraphBuilderState → α → GraphBuilderState)
    (hstep : ∀ g a, ∀ n ∈ (step g a).nodes, n ∈ g.nodes ∨ good n) :
    ∀ (l : List α) (g : GraphBuilderState), ∀ n ∈ (l.foldl step g).nodes, n ∈ g.nodes ∨ good n := by
  intro l
  induction l with
  | nil =>
    intro g n hn
    exact Or.inl hn
  | cons a l ih =>
    intro g n hn
    rcases ih (step g a) n hn with h | h
    · exact hstep g a n h
    · exact Or.inr h

theorem endpointStep_nodes {ns : String} {esNode : TrafficNode} {f : String} (hf : f ≠ "")
    (g : GraphBuilderState) (ep : EndpointEntry) :
    ∀ n ∈ (endpointStep ns esNode (some f) g ep).nodes,
      n ∈ g.nodes ∨ (n = esNode ∨ n.name = f) := by
  intro n hn
  unfold endpointStep at hn
  split at hn
  · exact Or.inl hn
  · rename_i tr _
    split at hn
    · exact Or.inl hn
    · rename_i trName _
      split at hn
      · split at hn
        · exact Or.inl hn
        · rename_i hcond hnot
          have htr : trName = f := by
            have hf' : (f != "") = true := by simpa using hf
            by_contra hne
            exact hnot (by simp [hf', bne_iff_ne, hne])
          rcases addEdge_nodes_cases hn with h | h | h
          · exact Or.inl h
          · exact Or.inr (Or.inl h)
          · refine Or.inr (Or.inr ?_)
            rw [h, ← htr]
            rfl
      · exact Or.inl hn

theorem sliceStep_nodes {ns : String} {svc : TrafficNode} {f : String} (hf : f ≠ "")
    (hsvc : svc.kind ≠ "Pod")
    (g : GraphBuilderState) (es : EndpointSliceObj) :
    ∀ n ∈ (sliceStep ns svc (some f) g es).nodes,
      n ∈ g.nodes ∨ (n.kind ≠ "Pod" ∨ n.name = f) := by
  intro n hn
  unfold sliceStep at hn
  split at hn
  · exact Or.inl hn
  · rename_i esName _
    split at hn
    · exact Or.inl hn
    · have hinner := foldl_nodes_inv (fun n => n = makeNode "EndpointSlice" esName (some ns)
          (roleForKind "EndpointSlice") ∨ n.name = f)
        (endpointStep ns (makeNode "EndpointSlice" esName (some ns) (roleForKind "EndpointSlice"))
          (some f))
        (fun g a => endpointStep_nodes hf g a) _ _ n hn
      rcases hinner with h | h | h
      · rcases addEdge_nodes_cases h with h' | h' | h'
        · exact Or.inl h'
        · refine Or.inr (Or.inl ?_)
          rw [h']
          exact hsvc
        · refine Or.inr (Or.inl ?_)
          rw [h']
          intro hc
          exact (by decide : ("EndpointSlice" : String) ≠ "Pod") hc
      · refine Or.inr (Or.inl ?_)
        rw [h]
        intro hc
        exact (by decide : ("EndpointSlice" : String) ≠ "Pod") hc
      · exact Or.inr (Or.inr h)

/-- C5: when a (non-empty) focus pod name is supplied to the service
discovery, the EndpointSlice→Pod hop adds only Pod nodes whose name
equals the focus pod — any Pod node of the resulting accumulator is
either pre-existing or the focus pod itself; the discovery router
supplies the starting pod's name as the focus for Pod- and
Deployment-scoped queries. -/
theorem C5_pod_scoped_no_sibling_fanout (gb : GraphBuilderState) (name ns f : String)
    (slices : List EndpointSliceObj) (hf : f ≠ "")
    (n : TrafficNode) (hn : n ∈ (discoverServiceDownstream gb name ns (some f) slices).nodes)
    (hkind : n.kind = "Pod") : n ∈ gb.nodes ∨ n.name = f := by
  unfold discoverServiceDownstream at hn
  have hres := foldl_nodes_inv (fun n => n.kind ≠ "Pod" ∨ n.name = f)
    (sliceStep ns (makeNode "Service" name (some ns) (roleForKind "Service")) (some f))
    (fun g a => sliceStep_nodes hf (fun hc => (by decide : ("Service" : String) ≠ "Pod") hc) g a)
    slices gb n hn
  rcases hres with h | h | h
  · exact Or.inl h
  · cases h hkind
  · exact Or.inr h

/-- Witness for C5: one EndpointSlice backing the service points at the
focus pod and at a sibling pod; the focus pod node is reachable and
satisfies the conclusion. -/
theorem C5_witness :
    makeNode "Pod" "checkout-7d9" (some "payments") (roleForKind "Pod")
        ∈ (GraphBuilderState.new
            (makeNode "Pod" "checkout-7d9" (some "payments") (roleForKind "Pod"))).nodes
      ∨ (makeNode "Pod" "checkout-7d9" (some "payments") (roleForKind "Pod")).name
          = "checkout-7d9" :=
  C5_pod_scoped_no_sibling_fanout
    (GraphBuilderState.new (makeNode "Pod" "checkout-7d9" (some "payments") (roleForKind "Pod")))
    "checkout" "payments" "checkout-7d9"
    [⟨some "checkout-es1", some [⟨some ⟨some "Pod", some "checkout-7d9", none⟩⟩,
      ⟨some ⟨some "Pod", some "checkout-5x2", none⟩⟩]⟩]
    (by decide)
    (makeNode "Pod" "checkout-7d9" (some "payments") (roleForKind "Pod"))
    (by decide) rfl

/-! ## Edge-provenance lemmas for the VirtualService/DestinationRule block -/

theorem foldl_edges_mono {α : Type} (step : GraphBuilderState → α → GraphBuilderState)
    (hstep : ∀ g a, ∀ e ∈ g.edges, e ∈ (step g a).edges) :
    ∀ (l : List α) (g : GraphBuilderState), ∀ e ∈ g.edges, e ∈ (l.foldl step g).edges := by
  intro l
  induction l with
  | nil =>
    intro g e he
    exact he
  | cons a l ih =>
    intro g e he
    exact ih (step g a) e (hstep g a e he)

theorem foldl_edges_inv {α : Type} (good : TrafficEdge → Prop)
    (step : GraphBuilderState → α → GraphBuilderState)
    (hstep : ∀ g a, ∀ e ∈ (step g a).edges, e ∈ g.edges ∨ good e) :
    ∀ (l : List α) (g : GraphBuilderState), ∀ e ∈ (l.foldl step g).edges, e ∈ g.edges ∨ good e := by
  intro l
  induction l with
  | nil =>
    intro g e he
    exact Or.inl he
  | cons a l ih =>
    intro g e he
    rcases ih (step g a) e he with h | h
    · exact hstep g a e h
    · exact Or.inr h

theorem gatewayStep_edges_mono (ns : String) (vsNode : TrafficNode)
    (g : GraphBuilderState) (gw : String) :
    ∀ e ∈ g.edges, e ∈ (gatewayStep ns vsNode g gw).edges := by
  intro e he
  unfold gatewayStep
  split
  · exact addEdge_mono _ _ _ he
  · exact he

theorem gatewayStep_edges_cases (ns : String) (vsNode : TrafficNode)
    (g : GraphBuilderState) (gw : String) :
    ∀ e ∈ (gatewayStep ns vsNode g gw).edges, e ∈ g.edges ∨ e.«to» = vsNode.id := by
  intro e he
  unfold gatewayStep at he
  split at he
  · rcases addEdge_cases he with h | h
    · exact Or.inl h
    · exact Or.inr (by rw [h])
  · exact Or.inl he

/-- Edges produced by the DestinationRule loop: either a
VirtualService→DestinationRule edge or a DestinationRule→Service
edge. -/
def drEdge (ns : String) (vsNode svc : TrafficNode) (e : TrafficEdge) : Prop :=
  (e.«from» = vsNode.id ∧ ∃ dn, e.«to» = nodeId "DestinationRule" dn (some ns))
  ∨ ((∃ dn, e.«from» = nodeId "DestinationRule" dn (some ns)) ∧ e.«to» = svc.id)

theorem drStep_fst_mono (drs : List DestinationRuleObj) (name ns : String)
    (vsNode svc : TrafficNode) (acc : GraphBuilderState × Bool) (dest : Destination) :
    ∀ e ∈ acc.1.edges, e ∈ (drStep drs name ns vsNode svc acc dest).1.edges := by
  intro e he
  unfold drStep
  split
  · exact he
  · split
    · exact he
    · split
      · exact he
      · exact addEdge_mono _ _ _ (addEdge_mono _ _ _ he)

theorem drStep_fst_cases (drs : List DestinationRuleObj) (name ns : String)
    (vsNode svc : TrafficNode) (acc : GraphBuilderState × Bool) (dest : Destination) :
    ∀ e ∈ (drStep drs name ns vsNode svc acc dest).1.edges,
      e ∈ acc.1.edges ∨ drEdge ns vsNode svc e := by
  intro e he
  unfold drStep at he
  split at he
  · exact Or.inl he
  · split at he
    · exact Or.inl he
    · rename_i dr _ dn _
      split at he
      · exact Or.inl he
      · rcases addEdge_cases he with h | h
        · rcases addEdge_cases h with h' | h'
          · exact Or.inl h'
          · refine Or.inr (Or.inl ⟨by rw [h'], dn, by rw [h']; rfl⟩)
        · refine Or.inr (Or.inr ⟨⟨dn, by rw [h]; rfl⟩, by rw [h]⟩)

theorem drfold_fst_mono (drs : List DestinationRuleObj) (name ns : String)
    (vsNode svc : TrafficNode) :
    ∀ (dests : List Destination) (acc : GraphBuilderState × Bool),
      ∀ e ∈ acc.1.edges, e ∈ (dests.foldl (drStep drs name ns vsNode svc) acc).1.edges := by
  intro dests
  induction dests with
  | nil =>
    intro acc e he
    exact he
  | cons d dests ih =>
    intro acc e he
    exact ih _ e (drStep_fst_mono drs name ns vsNode svc acc d e he)

theorem drfold_fst_cases (drs : List DestinationRuleObj) (name ns : String)
    (vsNode svc : TrafficNode) :
    ∀ (dests : List Destination) (acc : GraphBuilderState × Bool),
      ∀ e ∈ (dests.foldl (drStep drs name ns vsNode svc) acc).1.edges,
        e ∈ acc.1.edges ∨ drEdge ns vsNode svc e := by
  intro dests
  induction dests with
  | nil =>
    intro acc e he
    exact Or.inl he
  | cons d dests ih =>
    intro acc e he
    rcases ih _ e he with h | h
    · exact drStep_fst_cases drs name ns vsNode svc acc d e h
    · exact Or.inr h

theorem drStep_snd (drs : List DestinationRuleObj) (name ns : String)
    (vsNode svc : TrafficNode) (acc : GraphBuilderState × Bool) (dest : Destination) :
    (drStep drs name ns vsNode svc acc dest).2
      = (acc.2 || (findMatchingDestinationRule drs dest.host name ns).isSome) := by
  unfold drStep
  cases hfind : findMatchingDestinationRule drs dest.host name ns with
  | none => simp
  | some dr =>
    cases hn : dr.name <;> simp [hn]
    split <;> simp

theorem drfold_snd (drs : List DestinationRuleObj) (name ns : String)
    (vsNode svc : TrafficNode) :
    ∀ (dests : List Destination) (acc : GraphBuilderState × Bool),
      (dests.foldl (drStep drs name ns vsNode svc) acc).2
        = (acc.2 || dests.any fun d => (findMatchingDestinationRule drs d.host name ns).isSome) := by
  intro dests
  induction dests with
  | nil =>
    intro acc
    simp
  | cons d dests ih =>
    intro acc
    rw [List.foldl_cons, ih, drStep_snd]
    simp [Bool.or_assoc]

theorem drfold_mem_edges (drs : List DestinationRuleObj) (name ns : String)
    (vsNode svc : TrafficNode) :
    ∀ (dests : List Destination) (acc : GraphBuilderState × Bool),
      ∀ dest ∈ dests, ∀ dr, findMatchingDestinationRule drs dest.host name ns = some dr →
      ∀ dn, dr.name = some dn → dn ≠ "" →
      ((⟨vsNode.id, nodeId "DestinationRule" dn (some ns),
          "VirtualService traffic policy via DestinationRule" ++ destinationExtrasSuffix dest⟩ :
            TrafficEdge)
        ∈ (dests.foldl (drStep drs name ns vsNode svc) acc).1.edges) ∧
      ((⟨nodeId "DestinationRule" dn (some ns), svc.id,
          "DestinationRule applies to this service host"⟩ : TrafficEdge)
        ∈ (dests.foldl (drStep drs name ns vsNode svc) acc).1.edges) := by
  intro dests
  induction dests with
  | nil =>
    intro acc dest hdest
    cases hdest
  | cons d dests ih =>
    intro acc dest hdest dr hfind dn hdn hdnne
    rcases List.mem_cons.1 hdest with h1 | h1
    · subst h1
      rw [List.foldl_cons]
      constructor
      · apply drfold_fst_mono
        have : (drStep drs name ns vsNode svc acc dest).1
            = ((acc.1.addEdge vsNode
                (makeNode "DestinationRule" dn (some ns) (roleForKind "DestinationRule"))
                ("VirtualService traffic policy via DestinationRule"
                  ++ destinationExtrasSuffix dest)).addEdge
                (makeNode "DestinationRule" dn (some ns) (roleForKind "DestinationRule")) svc
                "DestinationRule applies to this service host") := by
          simp only [drStep, hfind, hdn]
          rw [if_neg hdnne]
        rw [this]
        exact addEdge_mono _ _ _ (addEdge_mem_self _ _ _ _)
      · apply drfold_fst_mono
        have : (drStep drs name ns vsNode svc acc dest).1
            = ((acc.1.addEdge vsNode
                (makeNode "DestinationRule" dn (some ns) (roleForKind "DestinationRule"))
                ("VirtualService traffic policy via DestinationRule"
                  ++ destinationExtrasSuffix dest)).addEdge
                (makeNode "DestinationRule" dn (some ns) (roleForKind "DestinationRule")) svc
                "DestinationRule applies to this service host") := by
          simp only [drStep, hfind, hdn]
          rw [if_neg hdnne]
        rw [this]
        exact addEdge_mem_self _ _ _ _
    · rw [List.foldl_cons]
      exact ih _ dest h1 dr hfind dn hdn hdnne

theorem nodeId_ne_VS_Service (a b : String) (o1 o2 : Option String) :
    nodeId "VirtualService" a o1 ≠ nodeId "Service" b o2 := by
  intro h
  have h2 := congrArg String.data h
  simp [nodeId, String.data_append] at h2

theorem nodeId_ne_DR_Service (a b : String) (o1 o2 : Option String) :
    nodeId "DestinationRule" a o1 ≠ nodeId "Service" b o2 := by
  intro h
  have h2 := congrArg String.data h
  simp [nodeId, String.data_append] at h2

theorem nodeId_ne_DR_VS (a b : String) (o1 o2 : Option String) :
    nodeId "DestinationRule" a o1 ≠ nodeId "VirtualService" b o2 := by
  intro h
  have h2 := congrArg String.data h
  simp [nodeId, String.data_append] at h2

/-- C2: for a VirtualService hitting a service, every matched destination
whose matching DestinationRule carries a truthy (non-empty) name
produces the VirtualService→DestinationRule and DestinationRule→Service
edges; as
soon as any destination has a matching DestinationRule no direct
VirtualService→Service edge exists in the result (given none was
present before); and the direct edge is added exactly when no
DestinationRule matches any matched destination. -/
theorem C2_destination_rule_preference (gb : GraphBuilderState) (vsName : String)
    (gateways : List String) (dests : List Destination) (drs : List DestinationRuleObj)
    (name ns : String)
    (hclean : ∀ e ∈ gb.edges, ¬(e.«from» = nodeId "VirtualService" vsName (some ns)
        ∧ e.«to» = nodeId "Service" name (some ns))) :
    (∀ dest ∈ dests, ∀ dr, findMatchingDestinationRule drs dest.host name ns = some dr →
      ∀ dn, dr.name = some dn → dn ≠ "" →
      (∃ e ∈ (processMatchedVirtualService gb vsName gateways dests drs name ns).edges,
          e.«from» = nodeId "VirtualService" vsName (some ns)
            ∧ e.«to» = nodeId "DestinationRule" dn (some ns)) ∧
      (∃ e ∈ (processMatchedVirtualService gb vsName gateways dests drs name ns).edges,
          e.«from» = nodeId "DestinationRule" dn (some ns)
            ∧ e.«to» = nodeId "Service" name (some ns))) ∧
    ((∃ dest ∈ dests, (findMatchingDestinationRule drs dest.host name ns).isSome = true) →
      ∀ e ∈ (processMatchedVirtualService gb vsName gateways dests drs name ns).edges,
        ¬(e.«from» = nodeId "VirtualService" vsName (some ns)
          ∧ e.«to» = nodeId "Service" name (some ns))) ∧
    ((∀ dest ∈ dests, findMatchingDestinationRule drs dest.host name ns = none) →
      ∃ e ∈ (processMatchedVirtualService gb vsName gateways dests drs name ns).edges,
        e.«from» = nodeId "VirtualService" vsName (some ns)
          ∧ e.«to» = nodeId "Service" name (some ns)) := by
  have hout_mono : ∀ e, e ∈ (dests.foldl (drStep drs name ns
        (makeNode "VirtualService" vsName (some ns) (roleForKind "VirtualService"))
        (makeNode "Service" name (some ns) (roleForKind "Service")))
        (gateways.foldl (gatewayStep ns (makeNode "VirtualService" vsName (some ns)
          (roleForKind "VirtualService"))) gb, false)).1.edges →
      e ∈ (processMatchedVirtualService gb vsName gateways dests drs name ns).edges := by
    intro e he
    unfold processMatchedVirtualService
    dsimp only
    split
    · exact he
    · exact addEdge_mono _ _ _ he
  refine ⟨?_, ?_, ?_⟩
  · intro dest hdest dr hfind dn hdn hdnne
    have hmem := drfold_mem_edges drs name ns
      (makeNode "VirtualService" vsName (some ns) (roleForKind "VirtualService"))
      (makeNode "Service" name (some ns) (roleForKind "Service"))
      dests
      (gateways.foldl (gatewayStep ns (makeNode "VirtualService" vsName (some ns)
        (roleForKind "VirtualService"))) gb, false)
      dest hdest dr hfind dn hdn hdnne
    exact ⟨⟨_, hout_mono _ hmem.1, rfl, rfl⟩, ⟨_, hout_mono _ hmem.2, rfl, rfl⟩⟩
  · intro hex e he hbad
    have hflag : (dests.foldl (drStep drs name ns
        (makeNode "VirtualService" vsName (some ns) (roleForKind "VirtualService"))
        (makeNode "Service" name (some ns) (roleForKind "Service")))
        (gateways.foldl (gatewayStep ns (makeNode "VirtualService" vsName (some ns)
          (roleForKind "VirtualService"))) gb, false)).2 = true := by
      rw [drfold_snd]
      simp only [Bool.false_or]
      rw [List.any_eq_true]
      rcases hex with ⟨dest, hdest, hsome⟩
      exact ⟨dest, hdest, hsome⟩
    have hout : (processMatchedVirtualService gb vsName gateways dests drs name ns).edges
        = (dests.foldl (drStep drs name ns
          (makeNode "VirtualService" vsName (some ns) (roleForKind "VirtualService"))
          (makeNode "Service" name (some ns) (roleForKind "Service")))
          (gateways.foldl (gatewayStep ns (makeNode "VirtualService" vsName (some ns)
            (roleForKind "VirtualService"))) gb, false)).1.edges := by
      unfold processMatchedVirtualService
      dsimp only
      rw [if_pos hflag]
    rw [hout] at he
    rcases drfold_fst_cases drs name ns
        (makeNode "VirtualService" vsName (some ns) (roleForKind "VirtualService"))
        (makeNode "Service" name (some ns) (roleForKind "Service")) dests _ e he with h | h
    · rcases foldl_edges_inv
          (fun e => e.«to» = (makeNode "VirtualService" vsName (some ns)
            (roleForKind "VirtualService")).id)
          (gatewayStep ns (makeNode "VirtualService" vsName (some ns)
            (roleForKind "VirtualService")))
          (fun g a => gatewayStep_edges_cases ns _ g a) gateways gb e h with h' | h'
      · exact hclean e h' hbad
      · exact nodeId_ne_VS_Service vsName name (some ns) (some ns) (h'.symm.trans hbad.2)
    · rcases h with ⟨_, dn, hto⟩ | ⟨⟨dn, hfrom⟩, _⟩
      · exact nodeId_ne_DR_Service dn name (some ns) (some ns) (hto.symm.trans hbad.2)
      · exact nodeId_ne_DR_VS dn vsName (some ns) (some ns) (hfrom.symm.trans hbad.1)
  · intro hnone
    have hflag : (dests.foldl (drStep drs name ns
        (makeNode "VirtualService" vsName (some ns) (roleForKind "VirtualService"))
        (makeNode "Service" name (some ns) (roleForKind "Service")))
        (gateways.foldl (gatewayStep ns (makeNode "VirtualService" vsName (some ns)
          (roleForKind "VirtualService"))) gb, false)).2 = false := by
      rw [drfold_snd]
      simp only [Bool.false_or]
      rw [List.any_eq_false]
      intro d hd
      simp [hnone d hd]
    have hout : (processMatchedVirtualService gb vsName gateways dests drs name ns).edges
        = ((dests.foldl (drStep drs name ns
          (makeNode "VirtualService" vsName (some ns) (roleForKind "VirtualService"))
          (makeNode "Service" name (some ns) (roleForKind "Service")))
          (gateways.foldl (gatewayStep ns (makeNode "VirtualService" vsName (some ns)
            (roleForKind "VirtualService"))) gb, false)).1.addEdge
          (makeNode "VirtualService" vsName (some ns) (roleForKind "VirtualService"))
          (makeNode "Service" name (some ns) (roleForKind "Service"))
          ("VirtualService routes to Service via destination.host"
            ++ directEdgeWeightSuffix dests)).edges := by
      unfold processMatchedVirtualService
      dsimp only
      rw [if_neg (by rw [hflag]; intro hc; cases hc)]
    rw [hout]
    exact ⟨_, addEdge_mem_self _ _ _ _, rfl, rfl⟩

/-- Witness for C2: one matched destination `reviews` with a
DestinationRule `reviews-dr` whose host is `reviews`; both chained edges
exist in the produced graph. -/
theorem C2_witness :
    (∃ e ∈ (processMatchedVirtualService
        (GraphBuilderState.new (makeNode "Service" "reviews" (some "default")
          (roleForKind "Service")))
        "reviews-route" [] [⟨"reviews", none, none⟩] [⟨some "reviews-dr", some "reviews"⟩]
        "reviews" "default").edges,
      e.«from» = nodeId "VirtualService" "reviews-route" (some "default")
        ∧ e.«to» = nodeId "DestinationRule" "reviews-dr" (some "default")) ∧
    (∃ e ∈ (processMatchedVirtualService
        (GraphBuilderState.new (makeNode "Service" "reviews" (some "default")
          (roleForKind "Service")))
        "reviews-route" [] [⟨"reviews", none, none⟩] [⟨some "reviews-dr", some "reviews"⟩]
        "reviews" "default").edges,
      e.«from» = nodeId "DestinationRule" "reviews-dr" (some "default")
        ∧ e.«to» = nodeId "Service" "reviews" (some "default")) :=
  (C2_destination_rule_preference
    (GraphBuilderState.new (makeNode "Service" "reviews" (some "default") (roleForKind "Service")))
    "reviews-route" [] [⟨"reviews", none, none⟩] [⟨some "reviews-dr", some "reviews"⟩]
    "reviews" "default" (by decide)).1
    ⟨"reviews", none, none⟩ (by decide)
    ⟨some "reviews-dr", some "reviews"⟩ (by decide) "reviews-dr" rfl (by decide)
